import Mathlib

/-!
# Verification of the sync-plug Connection Lifecycle & Publish Engine

A shallow embedding of the core of the `sync-plug` repository
(TypeScript) in Lean 4, together with theorems settling the frozen
claims C1..C10 about the natural-language specification.

Conventions of the embedding:

* JavaScript `Date` values and Unix timestamps are modelled as `Int`
  milliseconds (or seconds where the source divides by 1000).
* Fallible/`async` code is modelled with `Except String` (a thrown
  exception carries its message); externally-performed HTTP calls and
  library calls (axios/fetch/twitter-api-v2/jwt-decode) are supplied as
  oracle fields of an environment structure, so every code path of the
  repository's own logic is represented while network behaviour stays
  universally quantified.
* The `MemoryAdapter` store (a JS `Map`) is modelled as an association
  list with at most one entry per key (`setEntry` replaces in place,
  like `Map.set`).
* JS truthiness on strings (`!s` is true for `undefined`/`null`/`""`)
  is modelled by `strFalsy` on `Option String`.
-/

namespace SyncPlug

deriving instance DecidableEq for Except

/-- `PostOptions` from `src/types.ts`. `postData` is omitted: the
claims under verification never consult it. -/
structure PostOptions where
  text : String
  mediaUrl : Option String := none
  mediaAltText : Option String := none
  projectName : Option String := none
deriving DecidableEq, Repr

/-- The platform-specific identifier bag inside `PostResult.result`
(`src/types.ts`): `id`, `tweetId`, `uri`, `cid`, `publish_id`, plus the
Dev.to `url`/`title` extras.  A field that the handler did not set is
`none` (absent key in the JS object). -/
structure PostResultIds where
  id : Option String := none
  tweetId : Option String := none
  uri : Option String := none
  cid : Option String := none
  publish_id : Option String := none
  url : Option String := none
  title : Option String := none
deriving DecidableEq, Repr

/-- `PostResult` from `src/types.ts`. -/
structure PostResult where
  platform : Option String := none
  success : Bool
  result : Option PostResultIds := none
  error : Option String := none
deriving DecidableEq, Repr

/-- A stored platform connection.  `src/types.ts` declares a tagged
union of per-platform records; at runtime every variant is one JS
object, so the embedding flattens the union into a single record whose
platform-specific fields are optional (absent on other platforms'
variants).  Timestamps (`expiresAt`, `lastValidated`) are `Int`
milliseconds. -/
structure Conn where
  uid : String
  platform : String
  isValid : Bool
  needsReconnection : Bool
  lastValidated : Option Int := none
  accessToken : Option String := none
  refreshToken : Option String := none
  expiresAt : Option Int := none
  scopes : List String := []
  accessJwt : Option String := none
  refreshJwt : Option String := none
  apiKey : Option String := none
  webhookUrl : Option String := none
  token : Option String := none
  twitterUserId : Option String := none
  tiktokUserId : Option String := none
  linkedInUserId : Option String := none
  threadsUserId : Option String := none
deriving DecidableEq, Repr

/-- `Partial<PlatformConnection>`: the update object passed to
`updateConnection`.  A field that is `none` is absent from the update
object; `some v` means the key is present with value `v` (the call
sites of the repository never pass an explicitly-`undefined` key). -/
structure ConnUpdate where
  uid : Option String := none
  platform : Option String := none
  isValid : Option Bool := none
  needsReconnection : Option Bool := none
  lastValidated : Option Int := none
  accessToken : Option String := none
  refreshToken : Option String := none
  expiresAt : Option Int := none
  scopes : Option (List String) := none
  accessJwt : Option String := none
  refreshJwt : Option String := none
  apiKey : Option String := none
  webhookUrl : Option String := none
  token : Option String := none
  twitterUserId : Option String := none
  tiktokUserId : Option String := none
  linkedInUserId : Option String := none
  threadsUserId : Option String := none
deriving DecidableEq, Repr

/-- One field of the JS spread `{ ...existing, ...updates }`: the
update's value when the key is present, the existing value otherwise. -/
def mergeField {α : Type} (upd : Option α) (ex : α) : α :=
  match upd with
  | some v => v
  | none => ex

/-- One optional field of the spread: an absent update key keeps the
existing (possibly absent) value. -/
def mergeOptField {α : Type} (upd : Option α) (ex : Option α) : Option α :=
  match upd with
  | some v => some v
  | none => ex

/-- The JS object spread `{ ...existing, ...updates }` performed by
`MemoryAdapter.updateConnection` (`src/adapters/memory.ts`). -/
def applyUpdate (existing : Conn) (updates : ConnUpdate) : Conn where
  uid := mergeField updates.uid existing.uid
  platform := mergeField updates.platform existing.platform
  isValid := mergeField updates.isValid existing.isValid
  needsReconnection := mergeField updates.needsReconnection existing.needsReconnection
  lastValidated := mergeOptField updates.lastValidated existing.lastValidated
  accessToken := mergeOptField updates.accessToken existing.accessToken
  refreshToken := mergeOptField updates.refreshToken existing.refreshToken
  expiresAt := mergeOptField updates.expiresAt existing.expiresAt
  scopes := mergeField updates.scopes existing.scopes
  accessJwt := mergeOptField updates.accessJwt existing.accessJwt
  refreshJwt := mergeOptField updates.refreshJwt existing.refreshJwt
  apiKey := mergeOptField updates.apiKey existing.apiKey
  webhookUrl := mergeOptField updates.webhookUrl existing.webhookUrl
  token := mergeOptField updates.token existing.token
  twitterUserId := mergeOptField updates.twitterUserId existing.twitterUserId
  tiktokUserId := mergeOptField updates.tiktokUserId existing.tiktokUserId
  linkedInUserId := mergeOptField updates.linkedInUserId existing.linkedInUserId
  threadsUserId := mergeOptField updates.threadsUserId existing.threadsUserId

/-- `OAuthState` from `src/types.ts` (`createdAt` as `Int` ms). -/
structure OAuthState where
  uid : String
  codeVerifier : String
  state : String
  createdAt : Int
deriving DecidableEq, Repr

/-- Lookup in an association list (JS `Map.get`, `undefined ↦ none`). -/
def findEntry {α : Type} (l : List (String × α)) (k : String) : Option α :=
  match l with
  | [] => none
  | e :: rest => if e.1 = k then some e.2 else findEntry rest k

/-- JS `Map.set`: replace the entry for `k` in place, or append. -/
def setEntry {α : Type} (l : List (String × α)) (k : String) (v : α) :
    List (String × α) :=
  match l with
  | [] => [(k, v)]
  | e :: rest => if e.1 = k then (k, v) :: rest else e :: setEntry rest k v

/-- JS `Map.delete`: drop every entry for `k` (there is at most one). -/
def eraseEntry {α : Type} (l : List (String × α)) (k : String) :
    List (String × α) :=
  l.filter (fun e => ¬ e.1 = k)

/-- The in-memory store of `MemoryAdapter` (`src/adapters/memory.ts`):
`connections` and `oauthStates` maps. -/
structure MemoryAdapter where
  connections : List (String × Conn) := []
  oauthStates : List (String × OAuthState) := []
deriving DecidableEq, Repr

/-- `MemoryAdapter.getKey`. -/
def getKey (userId platform : String) : String := userId ++ ":" ++ platform

/-- `MemoryAdapter.saveConnection`. -/
def saveConnection (db : MemoryAdapter) (userId platform : String) (c : Conn) :
    MemoryAdapter :=
  { db with connections := setEntry db.connections (getKey userId platform) c }

/-- `MemoryAdapter.getConnection`. -/
def getConnection (db : MemoryAdapter) (userId platform : String) : Option Conn :=
  findEntry db.connections (getKey userId platform)

/-- `MemoryAdapter.updateConnection`: merge-and-set when the key is
present, otherwise do nothing. -/
def updateConnection (db : MemoryAdapter) (userId platform : String)
    (updates : ConnUpdate) : MemoryAdapter :=
  match findEntry db.connections (getKey userId platform) with
  | none => db
  | some existing =>
    { db with connections :=
        setEntry db.connections (getKey userId platform) (applyUpdate existing updates) }

/-- `MemoryAdapter.deleteConnection`. -/
def deleteConnection (db : MemoryAdapter) (userId platform : String) :
    MemoryAdapter :=
  { db with connections := eraseEntry db.connections (getKey userId platform) }

/-- `MemoryAdapter.saveOAuthState`. -/
def saveOAuthState (db : MemoryAdapter) (state : String) (data : OAuthState) :
    MemoryAdapter :=
  { db with oauthStates := setEntry db.oauthStates state data }

/-- `MemoryAdapter.getOAuthState`. -/
def getOAuthState (db : MemoryAdapter) (state : String) : Option OAuthState :=
  findEntry db.oauthStates state

/-- `MemoryAdapter.deleteOAuthState`. -/
def deleteOAuthState (db : MemoryAdapter) (state : String) : MemoryAdapter :=
  { db with oauthStates := eraseEntry db.oauthStates state }

/-- `BaseConnectionProvider.disconnect` (`src/connections/base.ts`):
delete the stored connection for this provider's platform. -/
def disconnect (db : MemoryAdapter) (userId platform : String) : MemoryAdapter :=
  deleteConnection db userId platform

/- ### Security primitives (`src/utils/security.ts`) -/

/-- JS string truthiness for an optional string: `!s` is `true` exactly
for `undefined`/`null`/`""`. -/
def strFalsy : Option String → Bool
  | none => true
  | some s => s = ""

/-- The `exp` claim of a decoded JWT payload: a JS number, or a value of
some other type (`typeof decoded.exp !== "number"`). -/
inductive JwtExpClaim where
  | num (e : Int)
  | nonNumeric
deriving DecidableEq, Repr

/-- The slice of `JwtPayload` that `isTokenExpired` inspects. -/
structure JwtPayload where
  exp : Option JwtExpClaim := none
deriving DecidableEq, Repr

/-- A decode oracle standing for the external `jwt-decode` library:
`.error` when `jwtDecode` throws on a malformed token. -/
def JwtDecoder : Type := String → Except Unit JwtPayload

/-- `isTokenExpired` from `src/utils/security.ts`.  `nowSeconds` is
`Date.now() / 1000` (times at second resolution in the model). -/
def isTokenExpired (decode : JwtDecoder) (nowSeconds : Int) :
    Option String → Bool
  | none => true
  | some t =>
    if t = "" then true
    else
      match decode t with
      | .error _ => true
      | .ok payload =>
        match payload.exp with
        | some (.num e) => nowSeconds ≥ e
        | _ => true

/-- `generateId` from `src/utils/security.ts`: the hex MD5 digest of
`String(Date.now())`.  The digest function itself is external
(`crypto.createHash`), supplied as `md5hex`; what matters is that the
output is a function of the millisecond timestamp alone. -/
def generateId (md5hex : String → String) (nowMs : Int) : String :=
  md5hex (toString nowMs)

/-- JS `String.prototype.toLowerCase`, character by character (kept at
the `List Char` level so terms reduce). -/
def strToLower (s : String) : String :=
  String.mk (s.toList.map Char.toLower)

/-- Whether `pat` occurs as a contiguous sublist. -/
def containsAux (pat : List Char) : List Char → Bool
  | [] => pat.isEmpty
  | c :: rest => List.isPrefixOf pat (c :: rest) || containsAux pat rest

/-- JS `String.prototype.includes`: substring containment. -/
def strContains (s pat : String) : Bool :=
  containsAux pat.toList s.toList

/-- The slice of a thrown error value that `isAuthError` inspects:
`message`, `status`, `response.status`, `code` and the Twitter
`data.error`/`data.type`/`data.title` diagnostics. -/
structure ErrLike where
  message : String := ""
  status : Option Int := none
  responseStatus : Option Int := none
  code : Option Int := none
  dataError : Option String := none
  dataType : Option String := none
  dataTitle : Option String := none
deriving DecidableEq, Repr

/-- JS `a || b` on optional numbers (`0` is falsy). -/
def numOr (a b : Option Int) : Option Int :=
  match a with
  | some v => if v = 0 then b else some v
  | none => b

/-- JS `a || b` on optional strings (`""` is falsy). -/
def strOr (a b : Option String) : Option String :=
  match a with
  | some s => if s = "" then b else some s
  | none => b

/-- `isAuthError` from `src/utils/security.ts`: platform-aware
classification of an error as an authentication failure. -/
def isAuthError (platform : String) (err : Option ErrLike) : Bool :=
  match err with
  | none => false
  | some e =>
    let message := strToLower e.message
    let status := numOr e.status (numOr e.responseStatus e.code)
    if status == some 401 || status == some 403 then true
    else if strContains message "authentication" || strContains message "authenticate" then
      true
    else if strContains message "invalid_token" || strContains message "invalid_grant" then
      true
    else if platform == "twitter" then
      match strOr (e.dataError.map strToLower)
          (strOr (e.dataType.map strToLower) (e.dataTitle.map strToLower)) with
      | some twitterDataError =>
        strContains twitterDataError "invalid_token" ||
          strContains twitterDataError "invalid request" ||
          strContains twitterDataError "authenticity token required"
      | none => false
    else if platform == "bluesky" then
      (status == some 400 && strContains message "invalid handle or password") ||
        strContains message "could not resolve handle"
    else if platform == "linkedin" then
      strContains message "unauthorized" || strContains message "invalid_token"
    else false

/- ### Media helpers (`src/utils/media.ts`) -/

/-- `isVideoFile`: the regex `/\.(mp4|mov|avi|wmv|flv|webm|mkv|m4v)$/i`
as a case-insensitive extension-suffix test. -/
def isVideoFile (urlOrPath : String) : Bool :=
  [".mp4", ".mov", ".avi", ".wmv", ".flv", ".webm", ".mkv", ".m4v"].any
    (fun ext => List.isSuffixOf ext.toList (strToLower urlOrPath).toList)

/-- `isImageFile`: the regex `/\.(jpeg|jpg|png|gif|webp|bmp|svg)$/i`. -/
def isImageFile (urlOrPath : String) : Bool :=
  [".jpeg", ".jpg", ".png", ".gif", ".webp", ".bmp", ".svg"].any
    (fun ext => List.isSuffixOf ext.toList (strToLower urlOrPath).toList)

/- ### TikTok chunk-sizing policy (`src/handlers/tiktok.ts`) -/

def MIN_CHUNK_SIZE_BYTES : Nat := 5 * 1024 * 1024

def MAX_CHUNK_SIZE_BYTES : Nat := 64 * 1024 * 1024

def DEFAULT_CHUNK_SIZE_BYTES : Nat := 20 * 1024 * 1024

/-- `Math.ceil(a / b)` for natural `a`, positive natural `b`. -/
def ceilDiv (a b : Nat) : Nat := (a + b - 1) / b

/-- The chunk-size/chunk-count computation at the head of
`TikTokHandler.handleVideoUpload`: returns
`(effectiveChunkSize, totalChunks)`. -/
def tiktokChunkPlan (fileSize : Nat) : Nat × Nat :=
  if fileSize < MIN_CHUNK_SIZE_BYTES then
    (fileSize, 1)
  else if fileSize ≤ MAX_CHUNK_SIZE_BYTES then
    (fileSize, 1)
  else
    let effectiveChunkSize := DEFAULT_CHUNK_SIZE_BYTES
    let totalChunks := ceilDiv fileSize effectiveChunkSize
    if totalChunks > 1000 then
      let grown := ceilDiv fileSize 1000
      let clampedLo := max grown MIN_CHUNK_SIZE_BYTES
      let clamped := min clampedLo MAX_CHUNK_SIZE_BYTES
      (clamped, ceilDiv fileSize clamped)
    else
      (effectiveChunkSize, totalChunks)

/- ### Post dispatcher (`src/dispatcher.ts`) -/

/-- What one `handler.sendPost(...)` invocation does from the
dispatcher's point of view: resolve with a `PostResult`, or throw. -/
inductive HandlerOutcome where
  | ok (r : PostResult)
  | exn (msg : String)

/-- A platform handler as the dispatcher consumes it: a function of
`(userId, connection, options)`.  Handlers run concurrently under
`Promise.allSettled` but each one only touches its own `(user,
platform)` connection record, so an outcome function per platform is a
faithful view of one `postToAll` batch. -/
def HandlerFn : Type := String → Conn → PostOptions → HandlerOutcome

/-- `PostDispatcher` state: the `handlers` map (one entry per
configured platform, in insertion order) and the database. -/
structure DispatchEnv where
  handlers : List (String × HandlerFn)
  db : MemoryAdapter

/-- `PostDispatcher.postToPlatform`: `.error` when the method throws
(unsupported platform, missing connection), `.ok` otherwise — a thrown
handler exception is caught and folded into a failure `PostResult`. -/
def postToPlatform (env : DispatchEnv) (platform userId : String)
    (options : PostOptions) : Except String PostResult :=
  match findEntry env.handlers platform with
  | none => .error ("Unsupported platform: " ++ platform)
  | some handler =>
    match getConnection env.db userId platform with
    | none =>
      .error ("No connection found for platform " ++ platform ++ " and user " ++ userId)
    | some connection =>
      match handler userId connection options with
      | .ok r => .ok r
      | .exn msg =>
        .ok { platform := some platform, success := false,
              error := some (if msg = "" then "Unknown error occurred" else msg) }

/-- One slot of the `Promise.allSettled` result array as `postToAll`
maps it back: a fulfilled `postToPlatform` passes through, a rejected
one becomes `{ platform, success: false, error: reason.message }`. -/
def settleOne (env : DispatchEnv) (userId : String) (options : PostOptions)
    (platform : String) : PostResult :=
  match postToPlatform env platform userId options with
  | .ok r => r
  | .error msg =>
    { platform := some platform, success := false,
      error := some (if msg = "" then "Unknown error" else msg) }

/-- `PostDispatcher.postToAll`: target the given platform list, or every
configured platform when none is given; one `PostResult` per target, in
request order. -/
def postToAll (env : DispatchEnv) (userId : String) (options : PostOptions)
    (platforms : Option (List String)) : List PostResult :=
  let targetPlatforms := platforms.getD (env.handlers.map (fun e => e.1))
  targetPlatforms.map (settleOne env userId options)

/- ### Platform handlers -/

/-- The result of one `sendPost` invocation: the returned `PostResult`
(or the thrown error message), the database afterwards, and whether the
proactive-refresh branch ran before the publish call. -/
structure SendOutcome where
  outcome : Except String PostResult
  db : MemoryAdapter
  proactiveRefresh : Bool
deriving Repr

/-- The partial update `{ isValid: false, needsReconnection: true }`
written on auth failures. -/
def invalidUpdate : ConnUpdate :=
  { isValid := some false, needsReconnection := some true }

/-- The partial update written after a successful publish. -/
def validUpdate (now : Int) : ConnUpdate :=
  { isValid := some true, needsReconnection := some false, lastValidated := some now }

/- #### Twitter (`src/handlers/twitter.ts`) -/

def REFRESH_BUFFER_SECONDS : Int := 300

/-- The proactive-refresh decision of `TwitterHandler.sendPost`: absent
`expiresAt` always needs refresh; otherwise compare the expiry time
against `now` plus the buffer. -/
def twitterNeedsRefresh (now : Int) (expiresAt : Option Int) : Bool :=
  match expiresAt with
  | none => true
  | some expiryTime => expiryTime ≤ now + REFRESH_BUFFER_SECONDS * 1000

structure TweetData where
  id : String
deriving DecidableEq, Repr

/-- An error thrown by the tweet call: `instanceof ApiResponseError`,
its `code`, and its `message`. -/
structure TwitterApiError where
  isApiResponseError : Bool
  code : Int
  message : String
deriving DecidableEq, Repr

/-- Oracles for the external calls `TwitterHandler.sendPost` makes. -/
structure TwitterSendEnv where
  now : Int
  refresh : Except String Conn
  mediaUpload : Except String String
  tweet1 : Except TwitterApiError TweetData
  refresh2 : Except String Conn
  tweet2 : Except TwitterApiError TweetData

/-- `TwitterHandler.sendPost`. -/
def twitterSendPost (env : TwitterSendEnv) (userId : String) (connection : Conn)
    (options : PostOptions) (db : MemoryAdapter) : SendOutcome :=
  if strFalsy connection.accessToken then
    ⟨.error "Missing Twitter accessToken", db, false⟩
  else
    let needsRefresh := twitterNeedsRefresh env.now connection.expiresAt
    let afterRefresh : Except (String × MemoryAdapter) Conn :=
      if needsRefresh then
        match env.refresh with
        | .error msg =>
          .error ("Twitter token refresh failed: " ++ msg,
                  updateConnection db userId "twitter" invalidUpdate)
        | .ok c => .ok c
      else .ok connection
    match afterRefresh with
    | .error (msg, db2) => ⟨.error msg, db2, needsRefresh⟩
    | .ok twitterConn =>
      if strFalsy twitterConn.accessToken then
        ⟨.error "Missing Twitter accessToken", db, needsRefresh⟩
      else
        -- media upload failures are logged and the post continues text-only
        let _mediaUploadId : Option String :=
          match options.mediaUrl with
          | none => none
          | some _ =>
            match env.mediaUpload with
            | .ok mid => some mid
            | .error _ => none
        match env.tweet1 with
        | .ok t =>
          ⟨.ok { platform := some "twitter", success := true,
                 result := some { id := some t.id, tweetId := some t.id } },
           updateConnection db userId "twitter" (validUpdate env.now),
           needsRefresh⟩
        | .error tweetError =>
          let isAuthErrorTwitter :=
            tweetError.isApiResponseError &&
              (tweetError.code == 401 || tweetError.code == 403)
          if isAuthErrorTwitter && !needsRefresh then
            match env.refresh2 with
            | .error msg =>
              ⟨.ok { platform := some "twitter", success := false,
                     error := some ("Twitter reactive refresh/retry failed: " ++ msg) },
               updateConnection db userId "twitter" invalidUpdate, needsRefresh⟩
            | .ok _ =>
              match env.tweet2 with
              | .ok t =>
                ⟨.ok { platform := some "twitter", success := true,
                       result := some { id := some t.id, tweetId := some t.id } },
                 updateConnection db userId "twitter" (validUpdate env.now),
                 needsRefresh⟩
              | .error e2 =>
                ⟨.ok { platform := some "twitter", success := false,
                       error := some ("Twitter reactive refresh/retry failed: " ++ e2.message) },
                 updateConnection db userId "twitter" invalidUpdate, needsRefresh⟩
          else
            let db3 :=
              if isAuthErrorTwitter then
                updateConnection db userId "twitter" invalidUpdate
              else db
            ⟨.ok { platform := some "twitter", success := false,
                   error := some (if tweetError.message = "" then "Unknown Twitter Error"
                                  else tweetError.message) },
             db3, needsRefresh⟩

/- #### TikTok (`src/handlers/tiktok.ts`) -/

/-- An error caught by the `sendPost` catch-all:
`error.response?.data?.error?.message` and `error.message`. -/
structure TikTokErr where
  responseMessage : Option String := none
  message : String
deriving DecidableEq, Repr

/-- `error.response?.data?.error?.message || error.message ||
"Unknown TikTok Error"` (JS falsy chaining on strings). -/
def tiktokErrMsg (e : TikTokErr) : String :=
  match e.responseMessage with
  | some s =>
    if s = "" then (if e.message = "" then "Unknown TikTok Error" else e.message) else s
  | none => if e.message = "" then "Unknown TikTok Error" else e.message

/-- Oracles for the external calls `TikTokHandler.sendPost` makes. -/
structure TikTokSendEnv where
  now : Int
  nowSeconds : Int
  decode : JwtDecoder
  refresh : Except String Conn
  /-- `downloadFileFromUrl` + `fs.statSync`: temp file path and size. -/
  download : Except TikTokErr (String × Nat)
  /-- `handleVideoUpload`: init, chunked PUTs and publish, returning the
  `publish_id`. -/
  videoUpload : Except TikTokErr String
  /-- `handlePhotoUpload`: init and publish, returning the `publish_id`. -/
  photoUpload : Except TikTokErr String

/-- `TikTokHandler.sendPost`. -/
def tiktokSendPost (env : TikTokSendEnv) (userId : String) (connection : Conn)
    (options : PostOptions) (db : MemoryAdapter) : SendOutcome :=
  if strFalsy connection.accessToken then
    ⟨.error "Missing TikTok accessToken", db, false⟩
  else
    match options.mediaUrl with
    | none => ⟨.error "Missing mediaUrl for TikTok post", db, false⟩
    | some mediaUrl =>
      let tokenExpired := isTokenExpired env.decode env.nowSeconds connection.accessToken
      let afterRefresh : Except (String × MemoryAdapter) Conn :=
        if tokenExpired then
          match env.refresh with
          | .error msg =>
            .error ("TikTok token refresh failed: " ++ msg,
                    updateConnection db userId "tiktok" invalidUpdate)
          | .ok c => .ok c
        else .ok connection
      match afterRefresh with
      | .error (msg, db2) => ⟨.error msg, db2, tokenExpired⟩
      | .ok _tiktokConn =>
        -- try body: acquire a publish id through the video or the photo protocol
        let videoPhase : Except TikTokErr (Option String) :=
          if isVideoFile mediaUrl then
            match env.download with
            | .error e => .error e
            | .ok (filePath, _fileSize) =>
              if isVideoFile filePath then
                match env.videoUpload with
                | .error e => .error e
                | .ok pid => .ok (some pid)
              else .ok none    -- temp file discarded, fall through to photo
          else .ok none
        let published : Except TikTokErr String :=
          match videoPhase with
          | .error e => .error e
          | .ok vp =>
            let afterVideo : Except TikTokErr String :=
              match vp with
              | some pid => if pid = "" then env.photoUpload else .ok pid
              | none => env.photoUpload
            match afterVideo with
            | .error e => .error e
            | .ok pid =>
              if pid = "" then
                .error { message := "TikTok publish_id was not received after media handling." }
              else .ok pid
        match published with
        | .ok publishId =>
          ⟨.ok { platform := some "tiktok", success := true,
                 result := some { publish_id := some publishId } },
           updateConnection db userId "tiktok" (validUpdate env.now),
           tokenExpired⟩
        | .error e =>
          ⟨.ok { platform := some "tiktok", success := false,
                 error := some (tiktokErrMsg e) },
           updateConnection db userId "tiktok" invalidUpdate,
           tokenExpired⟩

/- #### LinkedIn (`src/handlers/linkedin.ts`) -/

/-- The `fetch` response of the `ugcPosts` call: `ok`, `status`,
`statusText`, the error body text, and the `x-restli-id` header. -/
structure LinkedInResponse where
  ok : Bool
  status : Int
  statusText : String
  errorBody : String
  restliId : Option String
deriving DecidableEq, Repr

/-- Oracles for the external calls `LinkedInHandler.sendPost` makes. -/
structure LinkedInSendEnv where
  now : Int
  nowSeconds : Int
  decode : JwtDecoder
  refresh : Except String Conn
  registerUpload : Except String (String × String)
  uploadBinary : Except String Unit
  ugcPost : Except String LinkedInResponse

/-- `LinkedInHandler.sendPost`. -/
def linkedinSendPost (env : LinkedInSendEnv) (userId : String) (connection : Conn)
    (options : PostOptions) (db : MemoryAdapter) : SendOutcome :=
  if strFalsy connection.accessToken then
    ⟨.error "Missing LinkedIn accessToken", db, false⟩
  else if strFalsy connection.linkedInUserId then
    ⟨.error "Missing LinkedIn memberId. Ensure this is stored upon user connection.",
     db, false⟩
  else
    let tokenExpired := isTokenExpired env.decode env.nowSeconds connection.accessToken
    let afterRefresh : Except (String × MemoryAdapter) Conn :=
      if tokenExpired then
        match env.refresh with
        | .error msg =>
          .error ("LinkedIn token refresh failed: " ++ msg,
                  updateConnection db userId "linkedin" invalidUpdate)
        | .ok c => .ok c
      else .ok connection
    match afterRefresh with
    | .error (msg, db2) => ⟨.error msg, db2, tokenExpired⟩
    | .ok _linkedinConn =>
      -- media registration/upload failures are logged and the post continues
      let _mediaAttached : Bool :=
        match options.mediaUrl with
        | none => false
        | some _ =>
          match env.registerUpload with
          | .error _ => false
          | .ok _ =>
            match env.uploadBinary with
            | .error _ => false
            | .ok _ => true
      match env.ugcPost with
      | .error e =>
        ⟨.ok { platform := some "linkedin", success := false,
               error := some (if e = "" then "Unknown LinkedIn error" else e) },
         updateConnection db userId "linkedin" invalidUpdate, tokenExpired⟩
      | .ok resp =>
        if resp.ok then
          -- result: { id: restLiId || undefined }
          ⟨.ok { platform := some "linkedin", success := true,
                 result := some
                   { id := match resp.restliId with
                           | some s => if s = "" then none else some s
                           | none => none } },
           updateConnection db userId "linkedin" (validUpdate env.now),
           tokenExpired⟩
        else
          ⟨.ok { platform := some "linkedin", success := false,
                 error := some ("LinkedIn API Error: " ++ toString resp.status ++ " - "
                                ++ resp.statusText ++ " - " ++ resp.errorBody) },
           updateConnection db userId "linkedin" invalidUpdate, tokenExpired⟩

/- #### Discord (`src/handlers/discord.ts`) -/

def DISCORD_CHAR_LIMIT : Nat := 2000

/-- The `content` field of the webhook payload: trimmed text, a
project-derived fallback when empty, truncated to the character limit
(JS `slice` on a string modelled as `String.take`). -/
def discordContent (text : String) (projectName : Option String) : String :=
  let trimmedText := text.trim
  let fallbackText :=
    match projectName with
    | some p => if p = "" then "Social media update" else "Summary update for " ++ p
    | none => "Social media update"
  (if trimmedText = "" then fallbackText else trimmedText).take DISCORD_CHAR_LIMIT

/-- The `fetch` response of the webhook call. -/
structure DiscordResponse where
  ok : Bool
  status : Int
  statusText : String
deriving DecidableEq, Repr

/-- Oracles for the external call `DiscordHandler.sendPost` makes:
`.error` when `fetch` itself throws. -/
structure DiscordSendEnv where
  now : Int
  webhook : Except String DiscordResponse

/-- `DiscordHandler.sendPost`. -/
def discordSendPost (env : DiscordSendEnv) (userId : String) (connection : Conn)
    (options : PostOptions) (db : MemoryAdapter) : SendOutcome :=
  if strFalsy connection.webhookUrl then
    ⟨.error "Discord webhook URL is missing", db, false⟩
  else
    let _content := discordContent options.text options.projectName
    match env.webhook with
    | .error e =>
      ⟨.ok { platform := some "discord", success := false,
             error := some (if e = "" then "Unknown Discord error" else e) },
       updateConnection db userId "discord" invalidUpdate, false⟩
    | .ok resp =>
      if resp.ok then
        ⟨.ok { platform := some "discord", success := true, result := some {} },
         updateConnection db userId "discord" (validUpdate env.now), false⟩
      else
        ⟨.ok { platform := some "discord", success := false,
               error := some ("Discord webhook error: " ++ toString resp.status ++ " "
                              ++ resp.statusText) },
         updateConnection db userId "discord" invalidUpdate, false⟩

/- ### Connection providers -/

/- #### initiateAuth (`src/connections/twitter.ts`, `linkedin.ts`,
`src/connections/tiktok.ts`)

All three derive the opaque `state` with `generateId()`, i.e. from the
millisecond clock alone.  `md5hex` stands for the external digest,
`authLink`/`authUrl` for the externally-built authorization URL,
`codeVerifier` for the externally-generated PKCE verifier. -/

/-- `TwitterConnectionProvider.initiateAuth`: returns
`.ok (authUrl, state)` and persists the `OAuthState` row. -/
def twitterInitiateAuth (md5hex : String → String) (nowMs : Int)
    (hasCredentials : Bool) (authLink : String → String) (codeVerifier : String)
    (db : MemoryAdapter) (userId _redirectUri : String) :
    Except String (String × String) × MemoryAdapter :=
  if !hasCredentials then (.error "Twitter Client ID/Secret not configured", db)
  else
    let state := generateId md5hex nowMs
    let stateData : OAuthState :=
      { uid := userId, codeVerifier := codeVerifier, state := state, createdAt := nowMs }
    (.ok (authLink state, state), saveOAuthState db state stateData)

/-- `LinkedInConnectionProvider.initiateAuth` (no PKCE:
`codeVerifier: ""`). -/
def linkedinInitiateAuth (md5hex : String → String) (nowMs : Int)
    (hasCredentials : Bool) (authLink : String → String)
    (db : MemoryAdapter) (userId _redirectUri : String) :
    Except String (String × String) × MemoryAdapter :=
  if !hasCredentials then (.error "LinkedIn Client ID/Secret not configured", db)
  else
    let state := generateId md5hex nowMs
    let stateData : OAuthState :=
      { uid := userId, codeVerifier := "", state := state, createdAt := nowMs }
    (.ok (authLink state, state), saveOAuthState db state stateData)

/-- `TikTokConnectionProvider.initiateAuth` (PKCE verifier generated
externally). -/
def tiktokInitiateAuth (md5hex : String → String) (nowMs : Int)
    (hasCredentials : Bool) (authLink : String → String) (codeVerifier : String)
    (db : MemoryAdapter) (userId _redirectUri : String) :
    Except String (String × String) × MemoryAdapter :=
  if !hasCredentials then (.error "TikTok Client Key/Secret not configured", db)
  else
    let state := generateId md5hex nowMs
    let stateData : OAuthState :=
      { uid := userId, codeVerifier := codeVerifier, state := state, createdAt := nowMs }
    (.ok (authLink state, state), saveOAuthState db state stateData)

/-- The `state` component of an `initiateAuth` result. -/
def initAuthState (r : Except String (String × String) × MemoryAdapter) :
    Option String :=
  match r.1 with
  | .ok (_, state) => some state
  | .error _ => none

/- #### handleCallback (`src/connections/twitter.ts`,
`src/connections/tiktok.ts`) -/

structure TwitterTokens where
  accessToken : String
  refreshToken : Option String
  expiresIn : Int
  scopes : List String
deriving DecidableEq, Repr

structure TwitterUser where
  id : String
  username : String
deriving DecidableEq, Repr

/-- Oracles for `TwitterConnectionProvider.handleCallback`:
`login` is `client.loginWithOAuth2`, `me` is `userClient.v2.me`
(`.ok none` for a missing user object). -/
structure TwitterCallbackEnv where
  hasCredentials : Bool
  now : Int
  login : Except String TwitterTokens
  me : Except String (Option TwitterUser)

/-- `TwitterConnectionProvider.handleCallback`: look up the
`OAuthState` row, delete it, then exchange the code, fetch the user and
persist the connection. -/
def twitterHandleCallback (env : TwitterCallbackEnv) (db : MemoryAdapter)
    (_code state _redirectUri : String) : Except String Conn × MemoryAdapter :=
  if !env.hasCredentials then
    (.error "Twitter Client ID/Secret not configured", db)
  else
    match getOAuthState db state with
    | none => (.error "Invalid or expired state parameter", db)
    | some storedState =>
      let db1 := deleteOAuthState db state
      match env.login with
      | .error e => (.error e, db1)
      | .ok tokens =>
        match env.me with
        | .error e => (.error e, db1)
        | .ok none => (.error "Failed to fetch user details from Twitter", db1)
        | .ok (some userObject) =>
          let connection : Conn :=
            { uid := storedState.uid, platform := "twitter",
              isValid := true, needsReconnection := false,
              lastValidated := some env.now,
              accessToken := some tokens.accessToken,
              refreshToken := tokens.refreshToken,
              expiresAt := some (env.now + tokens.expiresIn * 1000),
              scopes := tokens.scopes,
              twitterUserId := some userObject.id }
          (.ok connection, saveConnection db1 storedState.uid "twitter" connection)

structure TikTokTokens where
  accessToken : String
  refreshToken : Option String
  expiresIn : Int
  scope : String
deriving DecidableEq, Repr

/-- Oracles for `TikTokConnectionProvider.handleCallback`:
`tokenExchange` is the `oauth/token/` POST, `userInfo` the
`user/info/` GET returning the user's `open_id`. -/
structure TikTokCallbackEnv where
  hasCredentials : Bool
  now : Int
  tokenExchange : Except String TikTokTokens
  userInfo : Except String String

/-- `TikTokConnectionProvider.handleCallback`. -/
def tiktokHandleCallback (env : TikTokCallbackEnv) (db : MemoryAdapter)
    (_code state _redirectUri : String) : Except String Conn × MemoryAdapter :=
  if !env.hasCredentials then
    (.error "TikTok Client Key/Secret not configured", db)
  else
    match getOAuthState db state with
    | none => (.error "Invalid or expired state parameter", db)
    | some storedState =>
      let db1 := deleteOAuthState db state
      match env.tokenExchange with
      | .error e => (.error e, db1)
      | .ok tokens =>
        match env.userInfo with
        | .error e => (.error e, db1)
        | .ok openId =>
          let connection : Conn :=
            { uid := storedState.uid, platform := "tiktok",
              isValid := true, needsReconnection := false,
              lastValidated := some env.now,
              accessToken := some tokens.accessToken,
              refreshToken := tokens.refreshToken,
              expiresAt := some (env.now + tokens.expiresIn * 1000),
              scopes := tokens.scope.splitOn ",",
              tiktokUserId := some openId }
          (.ok connection, saveConnection db1 storedState.uid "tiktok" connection)

/- ### Concrete fixtures used by witnesses and counterexamples -/

def connFix : Conn :=
  { uid := "alice", platform := "twitter", isValid := true, needsReconnection := false,
    accessToken := some "tok", refreshToken := some "ref",
    expiresAt := some 1700000000000 }

def dbFix : MemoryAdapter :=
  { connections := [(getKey "alice" "twitter", connFix)] }

def optsFix : PostOptions := { text := "Hello world" }

def optsText : PostOptions := { text := "Hello" }

def optsVideo : PostOptions := { text := "hi", mediaUrl := some "https://cdn.example/v.mp4" }

/-- A decode oracle whose every token carries a far-future `exp`. -/
def freshJwtDecoder : JwtDecoder := fun _ => .ok { exp := some (.num 9999999999) }

def okTwitterHandler : HandlerFn := fun _ _ _ =>
  .ok { platform := some "twitter", success := true,
        result := some { id := some "42", tweetId := some "42" } }

def throwingHandler : HandlerFn := fun _ _ _ => .exn "boom"

def okDiscordHandler : HandlerFn := fun _ _ _ =>
  .ok { platform := some "discord", success := true, result := some {} }

def dcConnFix : Conn :=
  { uid := "alice", platform := "discord", isValid := true, needsReconnection := false,
    webhookUrl := some "https://discord.example/webhook" }

def dbTwo : MemoryAdapter :=
  { connections := [(getKey "alice" "twitter", connFix),
                    (getKey "alice" "discord", dcConnFix)] }

def envThrow : DispatchEnv :=
  { handlers := [("twitter", okTwitterHandler), ("discord", throwingHandler)], db := dbTwo }

def envOk : DispatchEnv :=
  { handlers := [("twitter", okTwitterHandler), ("discord", okDiscordHandler)], db := dbTwo }

def oauthFix : OAuthState :=
  { uid := "alice", codeVerifier := "ver", state := "state1", createdAt := 0 }

def dbState : MemoryAdapter := { oauthStates := [("state1", oauthFix)] }

def envTWcb : TwitterCallbackEnv :=
  { hasCredentials := true, now := 1000,
    login := .ok { accessToken := "at", refreshToken := some "rt", expiresIn := 7200,
                   scopes := ["tweet.read"] },
    me := .ok (some { id := "tid", username := "tuser" }) }

def envKKcb : TikTokCallbackEnv :=
  { hasCredentials := true, now := 1000,
    tokenExchange := .ok { accessToken := "at", refreshToken := some "rt", expiresIn := 7200,
                           scope := "user.info.basic,video.upload" },
    userInfo := .ok "open1" }

def twErrServer : TwitterApiError :=
  { isApiResponseError := true, code := 500, message := "Internal Error" }

def twEnvFail : TwitterSendEnv :=
  { now := 0, refresh := .ok connFix, mediaUpload := .ok "m1",
    tweet1 := .error twErrServer, refresh2 := .ok connFix, tweet2 := .ok { id := "9" } }

def twEnvOk : TwitterSendEnv :=
  { now := 0, refresh := .ok connFix, mediaUpload := .ok "m1",
    tweet1 := .ok { id := "7" }, refresh2 := .ok connFix, tweet2 := .ok { id := "9" } }

def twEnvLate : TwitterSendEnv := { twEnvOk with now := 2000000000000 }

def tiktokConnStale : Conn :=
  { uid := "alice", platform := "tiktok", isValid := true, needsReconnection := false,
    accessToken := some "jwt", refreshToken := some "r", expiresAt := some 0 }

def tiktokConnNoExp : Conn := { tiktokConnStale with expiresAt := none }

def dbTik : MemoryAdapter :=
  { connections := [(getKey "alice" "tiktok", tiktokConnStale)] }

def tiktokErrNet : TikTokErr := { message := "network down" }

def tiktokEnvFresh : TikTokSendEnv :=
  { now := 1700000000000, nowSeconds := 1700000000, decode := freshJwtDecoder,
    refresh := .ok tiktokConnStale, download := .ok ("/tmp/v.mp4", 1000),
    videoUpload := .ok "pid1", photoUpload := .ok "pid2" }

def tiktokEnvFail : TikTokSendEnv :=
  { tiktokEnvFresh with download := .error tiktokErrNet }

def lnConnFix : Conn :=
  { uid := "alice", platform := "linkedin", isValid := true, needsReconnection := false,
    accessToken := some "lnjwt", linkedInUserId := some "mem1" }

def dbLn : MemoryAdapter :=
  { connections := [(getKey "alice" "linkedin", lnConnFix)] }

def lnEnvNoHeader : LinkedInSendEnv :=
  { now := 1700000000000, nowSeconds := 1700000000, decode := freshJwtDecoder,
    refresh := .ok lnConnFix, registerUpload := .ok ("uurl", "asset1"),
    uploadBinary := .ok (),
    ugcPost := .ok { ok := true, status := 201, statusText := "Created",
                     errorBody := "", restliId := none } }

def lnEnvWithHeader : LinkedInSendEnv :=
  { lnEnvNoHeader with
    ugcPost := .ok { ok := true, status := 201, statusText := "Created",
                     errorBody := "", restliId := some "urn-li-share-1" } }

def lnEnvBad : LinkedInSendEnv :=
  { lnEnvNoHeader with
    ugcPost := .ok { ok := false, status := 500, statusText := "Server Error",
                     errorBody := "oops", restliId := none } }

def dbDc : MemoryAdapter :=
  { connections := [(getKey "alice" "discord", dcConnFix)] }

def dcEnvOk : DiscordSendEnv :=
  { now := 5, webhook := .ok { ok := true, status := 204, statusText := "No Content" } }

def dcEnvBad : DiscordSendEnv :=
  { now := 5, webhook := .ok { ok := false, status := 404, statusText := "Not Found" } }

/-- A decode oracle with one token per interesting shape. -/
def decodeFix : JwtDecoder := fun t =>
  if t = "expired-jwt" then .ok { exp := some (.num 100) }
  else if t = "fresh-jwt" then .ok { exp := some (.num 2000000000) }
  else if t = "no-exp-jwt" then .ok { exp := none }
  else if t = "str-exp-jwt" then .ok { exp := some .nonNumeric }
  else .error ()

/- ## Helper lemmas -/

/- ### Association-list facts used throughout -/

theorem findEntry_eraseEntry_self {α : Type} (l : List (String × α)) (k : String) :
    findEntry (eraseEntry l k) k = none := by
  induction l with
  | nil => rfl
  | cons e rest ih =>
    by_cases h : e.1 = k
    · simp [eraseEntry, List.filter, h, findEntry] at ih ⊢
      simpa [eraseEntry] using ih
    · simp [eraseEntry, List.filter, h, findEntry] at ih ⊢
      simpa [eraseEntry, findEntry, h] using ih

theorem eraseEntry_of_not_mem {α : Type} (l : List (String × α)) (k : String)
    (h : findEntry l k = none) : eraseEntry l k = l := by
  induction l with
  | nil => rfl
  | cons e rest ih =>
    by_cases he : e.1 = k
    · simp [findEntry, he] at h
    · simp [findEntry, he] at h
      simp [eraseEntry, List.filter, he] at ih ⊢
      exact ih h

theorem eraseEntry_idem {α : Type} (l : List (String × α)) (k : String) :
    eraseEntry (eraseEntry l k) k = eraseEntry l k :=
  eraseEntry_of_not_mem _ _ (findEntry_eraseEntry_self l k)

theorem findEntry_setEntry_self {α : Type} (l : List (String × α)) (k : String) (v : α) :
    findEntry (setEntry l k v) k = some v := by
  induction l with
  | nil => simp [setEntry, findEntry]
  | cons e rest ih =>
    by_cases h : e.1 = k
    · simp [setEntry, h, findEntry]
    · simp [setEntry, h, findEntry, ih]

theorem findEntry_setEntry_ne {α : Type} (l : List (String × α)) (k k' : String) (v : α)
    (h : k' ≠ k) : findEntry (setEntry l k v) k' = findEntry l k' := by
  induction l with
  | nil => simp [setEntry, findEntry, Ne.symm h]
  | cons e rest ih =>
    by_cases he : e.1 = k
    · subst he
      simp [setEntry, findEntry, Ne.symm h]
    · simp [setEntry, he, findEntry, ih]

/- ### ceiling-division facts -/

theorem le_ceilDiv_mul (a b : Nat) (hb : 0 < b) : a ≤ ceilDiv a b * b := by
  have e1 := Nat.div_add_mod (a + b - 1) b
  have e2 : (a + b - 1) % b < b := Nat.mod_lt _ hb
  have e3 : ceilDiv a b * b = b * ((a + b - 1) / b) := by
    unfold ceilDiv
    exact Nat.mul_comm _ _
  omega

theorem ceilDiv_pred_mul_lt (a b : Nat) (ha : 0 < a) (hb : 0 < b) :
    (ceilDiv a b - 1) * b < a := by
  have e1 := Nat.div_add_mod (a + b - 1) b
  have e2 : (a + b - 1) % b < b := Nat.mod_lt _ hb
  have e3 : (ceilDiv a b - 1) * b = b * ((a + b - 1) / b) - b := by
    unfold ceilDiv
    rw [Nat.sub_mul, Nat.one_mul, Nat.mul_comm]
  omega

theorem ceilDiv_le (a b k : Nat) (hb : 0 < b) (h : a ≤ k * b) :
    ceilDiv a b ≤ k := by
  unfold ceilDiv
  have hk : a + b - 1 < (k + 1) * b := by
    have e : (k + 1) * b = k * b + b := by ring
    omega
  have := (Nat.div_lt_iff_lt_mul hb).mpr hk
  omega

theorem lt_ceilDiv (a b k : Nat) (hb : 0 < b) (h : k * b < a) :
    k < ceilDiv a b := by
  by_contra hc
  push_neg at hc
  have h1 := le_ceilDiv_mul a b hb
  have h2 : ceilDiv a b * b ≤ k * b := Nat.mul_le_mul_right b hc
  omega

theorem getConnection_updateConnection_self (db : MemoryAdapter)
    (userId platform : String) (updates : ConnUpdate) (existing : Conn)
    (h : getConnection db userId platform = some existing) :
    getConnection (updateConnection db userId platform updates) userId platform =
      some (applyUpdate existing updates) := by
  have h' : findEntry db.connections (getKey userId platform) = some existing := h
  simp only [getConnection, updateConnection, h']
  exact findEntry_setEntry_self _ _ _

theorem twitterHandleCallback_consumes_state (env : TwitterCallbackEnv)
    (db : MemoryAdapter) (code state uri : String)
    (h : env.hasCredentials = true) :
    getOAuthState (twitterHandleCallback env db code state uri).2 state = none := by
  simp only [twitterHandleCallback, h, Bool.not_true, Bool.false_eq_true, if_false]
  cases hst : getOAuthState db state with
  | none => exact hst
  | some s =>
    cases env.login with
    | error e => exact findEntry_eraseEntry_self _ _
    | ok tokens =>
      cases env.me with
      | error e => exact findEntry_eraseEntry_self _ _
      | ok u =>
        cases u with
        | none => exact findEntry_eraseEntry_self _ _
        | some userObject => exact findEntry_eraseEntry_self _ _

theorem tiktokHandleCallback_consumes_state (env : TikTokCallbackEnv)
    (db : MemoryAdapter) (code state uri : String)
    (h : env.hasCredentials = true) :
    getOAuthState (tiktokHandleCallback env db code state uri).2 state = none := by
  simp only [tiktokHandleCallback, h, Bool.not_true, Bool.false_eq_true, if_false]
  cases hst : getOAuthState db state with
  | none => exact hst
  | some s =>
    cases env.tokenExchange with
    | error e => exact findEntry_eraseEntry_self _ _
    | ok tokens =>
      cases env.userInfo with
      | error e => exact findEntry_eraseEntry_self _ _
      | ok openId => exact findEntry_eraseEntry_self _ _

theorem twitterHandleCallback_absent_state (env : TwitterCallbackEnv)
    (db : MemoryAdapter) (code state uri : String)
    (h : env.hasCredentials = true) (habs : getOAuthState db state = none) :
    twitterHandleCallback env db code state uri =
      (.error "Invalid or expired state parameter", db) := by
  simp only [twitterHandleCallback, h, Bool.not_true, Bool.false_eq_true, if_false, habs]

theorem tiktokHandleCallback_absent_state (env : TikTokCallbackEnv)
    (db : MemoryAdapter) (code state uri : String)
    (h : env.hasCredentials = true) (habs : getOAuthState db state = none) :
    tiktokHandleCallback env db code state uri =
      (.error "Invalid or expired state parameter", db) := by
  simp only [tiktokHandleCallback, h, Bool.not_true, Bool.false_eq_true, if_false, habs]

theorem twitterSendPost_proactive (env : TwitterSendEnv) (userId : String)
    (c : Conn) (opts : PostOptions) (db : MemoryAdapter)
    (h : strFalsy c.accessToken = false) :
    (twitterSendPost env userId c opts db).proactiveRefresh =
      twitterNeedsRefresh env.now c.expiresAt := by
  simp only [twitterSendPost, h, Bool.false_eq_true, if_false]
  generalize twitterNeedsRefresh env.now c.expiresAt = nr
  cases nr <;>
    simp only [if_true, Bool.false_eq_true, if_false] <;>
    (repeat' split) <;> rfl

set_option maxHeartbeats 1000000 in
theorem tiktokSendPost_proactive (env : TikTokSendEnv) (userId : String)
    (c : Conn) (opts : PostOptions) (db : MemoryAdapter) (url : String)
    (h : strFalsy c.accessToken = false) (hm : opts.mediaUrl = some url) :
    (tiktokSendPost env userId c opts db).proactiveRefresh =
      isTokenExpired env.decode env.nowSeconds c.accessToken := by
  unfold tiktokSendPost
  rw [h, hm]
  simp only [Bool.false_eq_true, if_false]
  generalize isTokenExpired env.decode env.nowSeconds c.accessToken = te
  cases te <;>
    simp only [if_true, Bool.false_eq_true, if_false] <;>
    (repeat' split) <;> rfl

/- ## Claims -/

/-- C7: for every user and platform, `disconnect` followed by
`getConnection` is absent; a second consecutive `disconnect` is a
no-op; and `disconnect` on a store holding no such connection leaves
the store unchanged (and, in particular, completes without error —
`disconnect` is a total function of the store). -/
theorem disconnect_idempotent_get_none (db db0 : MemoryAdapter)
    (userId userId0 platform platform0 : String)
    (h0 : getConnection db0 userId0 platform0 = none) :
    getConnection (disconnect db userId platform) userId platform = none ∧
    disconnect (disconnect db userId platform) userId platform =
      disconnect db userId platform ∧
    disconnect db0 userId0 platform0 = db0 := by
  refine ⟨?_, ?_, ?_⟩
  · exact findEntry_eraseEntry_self _ _
  · simp only [disconnect, deleteConnection]
    rw [eraseEntry_idem]
  · simp only [disconnect, deleteConnection]
    rw [eraseEntry_of_not_mem _ _ h0]

/-- Witness for C7 at a concrete store. -/
theorem disconnect_idempotent_get_none_witness :
    getConnection dbFix "bob" "twitter" = none ∧
    (getConnection (disconnect dbFix "alice" "twitter") "alice" "twitter" = none ∧
     disconnect (disconnect dbFix "alice" "twitter") "alice" "twitter" =
       disconnect dbFix "alice" "twitter" ∧
     disconnect dbFix "bob" "twitter" = dbFix) :=
  ⟨by decide,
   disconnect_idempotent_get_none dbFix dbFix "alice" "bob" "twitter" "twitter" (by decide)⟩

/-- C10: `MemoryAdapter.updateConnection` on an absent key is a silent
no-op; on a present key the stored record becomes the JS spread
`applyUpdate existing updates` — each field takes the update's value
when the key is named and the existing value otherwise (so the empty
update preserves the record exactly) — while every other key of the
connections map and the whole `oauthStates` map are untouched. -/
theorem updateConnection_frame (db db0 : MemoryAdapter)
    (userId userId0 platform platform0 : String) (updates updates0 : ConnUpdate)
    (existing : Conn) (k : String)
    (h0 : getConnection db0 userId0 platform0 = none)
    (h : getConnection db userId platform = some existing)
    (hk : k ≠ getKey userId platform) :
    updateConnection db0 userId0 platform0 updates0 = db0 ∧
    getConnection (updateConnection db userId platform updates) userId platform =
      some (applyUpdate existing updates) ∧
    findEntry (updateConnection db userId platform updates).connections k =
      findEntry db.connections k ∧
    (updateConnection db userId platform updates).oauthStates = db.oauthStates ∧
    applyUpdate existing {} = existing ∧
    applyUpdate existing updates =
      { uid := mergeField updates.uid existing.uid,
        platform := mergeField updates.platform existing.platform,
        isValid := mergeField updates.isValid existing.isValid,
        needsReconnection := mergeField updates.needsReconnection existing.needsReconnection,
        lastValidated := mergeOptField updates.lastValidated existing.lastValidated,
        accessToken := mergeOptField updates.accessToken existing.accessToken,
        refreshToken := mergeOptField updates.refreshToken existing.refreshToken,
        expiresAt := mergeOptField updates.expiresAt existing.expiresAt,
        scopes := mergeField updates.scopes existing.scopes,
        accessJwt := mergeOptField updates.accessJwt existing.accessJwt,
        refreshJwt := mergeOptField updates.refreshJwt existing.refreshJwt,
        apiKey := mergeOptField updates.apiKey existing.apiKey,
        webhookUrl := mergeOptField updates.webhookUrl existing.webhookUrl,
        token := mergeOptField updates.token existing.token,
        twitterUserId := mergeOptField updates.twitterUserId existing.twitterUserId,
        tiktokUserId := mergeOptField updates.tiktokUserId existing.tiktokUserId,
        linkedInUserId := mergeOptField updates.linkedInUserId existing.linkedInUserId,
        threadsUserId := mergeOptField updates.threadsUserId existing.threadsUserId } := by
  have h' : findEntry db.connections (getKey userId platform) = some existing := h
  have h0' : findEntry db0.connections (getKey userId0 platform0) = none := h0
  refine ⟨?_, ?_, ?_, ?_, ?_, rfl⟩
  · simp only [updateConnection, h0']
  · simp only [getConnection, updateConnection, h']
    exact findEntry_setEntry_self _ _ _
  · simp only [updateConnection, h']
    exact findEntry_setEntry_ne _ _ _ _ hk
  · simp only [updateConnection, h']
  · simp only [applyUpdate, mergeField, mergeOptField]

/-- Witness for C10 at a concrete store and update. -/
theorem updateConnection_frame_witness :
    getConnection dbFix "bob" "twitter" = none ∧
    getConnection dbFix "alice" "twitter" = some connFix ∧
    "other-key" ≠ getKey "alice" "twitter" ∧
    (updateConnection dbFix "bob" "twitter" invalidUpdate = dbFix ∧
     getConnection (updateConnection dbFix "alice" "twitter" invalidUpdate) "alice" "twitter" =
       some (applyUpdate connFix invalidUpdate) ∧
     findEntry (updateConnection dbFix "alice" "twitter" invalidUpdate).connections "other-key" =
       findEntry dbFix.connections "other-key" ∧
     (updateConnection dbFix "alice" "twitter" invalidUpdate).oauthStates = dbFix.oauthStates ∧
     applyUpdate connFix {} = connFix ∧
     applyUpdate connFix invalidUpdate =
       { uid := mergeField invalidUpdate.uid connFix.uid,
         platform := mergeField invalidUpdate.platform connFix.platform,
         isValid := mergeField invalidUpdate.isValid connFix.isValid,
         needsReconnection := mergeField invalidUpdate.needsReconnection connFix.needsReconnection,
         lastValidated := mergeOptField invalidUpdate.lastValidated connFix.lastValidated,
         accessToken := mergeOptField invalidUpdate.accessToken connFix.accessToken,
         refreshToken := mergeOptField invalidUpdate.refreshToken connFix.refreshToken,
         expiresAt := mergeOptField invalidUpdate.expiresAt connFix.expiresAt,
         scopes := mergeField invalidUpdate.scopes connFix.scopes,
         accessJwt := mergeOptField invalidUpdate.accessJwt connFix.accessJwt,
         refreshJwt := mergeOptField invalidUpdate.refreshJwt connFix.refreshJwt,
         apiKey := mergeOptField invalidUpdate.apiKey connFix.apiKey,
         webhookUrl := mergeOptField invalidUpdate.webhookUrl connFix.webhookUrl,
         token := mergeOptField invalidUpdate.token connFix.token,
         twitterUserId := mergeOptField invalidUpdate.twitterUserId connFix.twitterUserId,
         tiktokUserId := mergeOptField invalidUpdate.tiktokUserId connFix.tiktokUserId,
         linkedInUserId := mergeOptField invalidUpdate.linkedInUserId connFix.linkedInUserId,
         threadsUserId := mergeOptField invalidUpdate.threadsUserId connFix.threadsUserId }) :=
  ⟨by decide, by decide, by decide,
   updateConnection_frame dbFix dbFix "alice" "bob" "twitter" "twitter"
     invalidUpdate invalidUpdate connFix "other-key" (by decide) (by decide) (by decide)⟩

/-- C9: `isTokenExpired` is total (a total Lean function by
construction) and fails closed: `true` for a null/undefined token, for
the empty token, for a token the decoder rejects, and for a decoded
payload whose `exp` claim is missing or non-numeric; for a numeric
`exp` it returns `true` exactly when the current time in seconds is
`≥ exp`. -/
theorem isTokenExpired_fails_closed
    (decode : JwtDecoder) (now : Int) (t1 t2 t3 t4 : String) (e : Int)
    (hd1 : decode t1 = .error ())
    (hd2 : decode t2 = .ok { exp := none })
    (hd3 : decode t3 = .ok { exp := some .nonNumeric })
    (hd4 : decode t4 = .ok { exp := some (.num e) })
    (h1 : t1 ≠ "") (h2 : t2 ≠ "") (h3 : t3 ≠ "") (h4 : t4 ≠ "") :
    isTokenExpired decode now none = true ∧
    isTokenExpired decode now (some "") = true ∧
    isTokenExpired decode now (some t1) = true ∧
    isTokenExpired decode now (some t2) = true ∧
    isTokenExpired decode now (some t3) = true ∧
    isTokenExpired decode now (some t4) = decide (now ≥ e) := by
  refine ⟨rfl, rfl, ?_, ?_, ?_, ?_⟩
  · simp [isTokenExpired, h1, hd1]
  · simp [isTokenExpired, h2, hd2]
  · simp [isTokenExpired, h3, hd3]
  · simp [isTokenExpired, h4, hd4]

/-- Witness for C9 at the concrete decoder. -/
theorem isTokenExpired_fails_closed_witness :
    decodeFix "garbage" = .error () ∧
    decodeFix "expired-jwt" = .ok { exp := some (.num 100) } ∧
    (isTokenExpired decodeFix 1700000000 none = true ∧
     isTokenExpired decodeFix 1700000000 (some "") = true ∧
     isTokenExpired decodeFix 1700000000 (some "garbage") = true ∧
     isTokenExpired decodeFix 1700000000 (some "no-exp-jwt") = true ∧
     isTokenExpired decodeFix 1700000000 (some "str-exp-jwt") = true ∧
     isTokenExpired decodeFix 1700000000 (some "expired-jwt") =
       decide ((1700000000 : Int) ≥ 100)) :=
  ⟨rfl, rfl,
   isTokenExpired_fails_closed decodeFix 1700000000
     "garbage" "no-exp-jwt" "str-exp-jwt" "expired-jwt" 100
     rfl rfl rfl rfl (by decide) (by decide) (by decide) (by decide)⟩

/-- C6: the `state` produced by `initiateAuth` of the Twitter, LinkedIn
and TikTok providers is `generateId()` — the MD5 digest of the
millisecond timestamp alone.  Hence any two handshakes initiated in the
same millisecond (`nowMs` equal), for any users, redirect URIs or even
different providers, receive the *same* state token: state values are
reused across concurrent handshakes, refuting the claim.  (`generateState`,
the cryptographically random generator in `src/utils/security.ts`, is
only used by the Threads provider.) -/
theorem initiateAuth_state_collision
    (md5hex : String → String) (nowMs : Int)
    (aT aL aK : String → String) (cvT cvK : String)
    (dbT dbL dbK : MemoryAdapter) (uT uL uK rT rL rK : String) :
    initAuthState (twitterInitiateAuth md5hex nowMs true aT cvT dbT uT rT) =
      some (generateId md5hex nowMs) ∧
    initAuthState (linkedinInitiateAuth md5hex nowMs true aL dbL uL rL) =
      some (generateId md5hex nowMs) ∧
    initAuthState (tiktokInitiateAuth md5hex nowMs true aK cvK dbK uK rK) =
      some (generateId md5hex nowMs) :=
  ⟨rfl, rfl, rfl⟩

/-- C2 counterexample: the claim as stated fails twice.  For `S = 1`
(a positive size below the 5 MiB minimum) the computed chunk size is
`1`, outside the `[minimum, maximum]` bounds; for
`S = 1000 * 64 MiB + 1` the clamp to the maximum chunk size leaves
`1001 > 1000` chunks. -/
theorem tiktokChunkPlan_claim_false :
    (0 < 1 ∧ (tiktokChunkPlan 1).1 = 1 ∧
      (tiktokChunkPlan 1).1 < MIN_CHUNK_SIZE_BYTES) ∧
    (0 < 1000 * MAX_CHUNK_SIZE_BYTES + 1 ∧
      (tiktokChunkPlan (1000 * MAX_CHUNK_SIZE_BYTES + 1)).2 = 1001) := by
  decide

theorem tiktokChunkPlan_single (T : Nat) (hT : T ≤ MAX_CHUNK_SIZE_BYTES) :
    tiktokChunkPlan T = (T, 1) := by
  simp only [tiktokChunkPlan]
  split_ifs with h1 <;> rfl

theorem tiktokChunkPlan_straddle (S : Nat) (hS : 0 < S) :
    S ≤ (tiktokChunkPlan S).2 * (tiktokChunkPlan S).1 ∧
    ((tiktokChunkPlan S).2 - 1) * (tiktokChunkPlan S).1 < S := by
  simp only [tiktokChunkPlan]
  split_ifs with h1 h2 h3
  · refine ⟨?_, ?_⟩
    · show S ≤ 1 * S
      omega
    · show (1 - 1) * S < S
      omega
  · refine ⟨?_, ?_⟩
    · show S ≤ 1 * S
      omega
    · show (1 - 1) * S < S
      omega
  · -- grown-and-clamped chunk size
    have hmin : (0 : Nat) < MIN_CHUNK_SIZE_BYTES := by decide
    have hmax : (0 : Nat) < MAX_CHUNK_SIZE_BYTES := by decide
    have hpos :
        0 < (ceilDiv S 1000 ⊔ MIN_CHUNK_SIZE_BYTES) ⊓ MAX_CHUNK_SIZE_BYTES := by
      omega
    refine ⟨?_, ?_⟩
    · show S ≤ ceilDiv S ((ceilDiv S 1000 ⊔ MIN_CHUNK_SIZE_BYTES) ⊓ MAX_CHUNK_SIZE_BYTES) *
        ((ceilDiv S 1000 ⊔ MIN_CHUNK_SIZE_BYTES) ⊓ MAX_CHUNK_SIZE_BYTES)
      exact le_ceilDiv_mul _ _ hpos
    · show (ceilDiv S ((ceilDiv S 1000 ⊔ MIN_CHUNK_SIZE_BYTES) ⊓ MAX_CHUNK_SIZE_BYTES) - 1) *
        ((ceilDiv S 1000 ⊔ MIN_CHUNK_SIZE_BYTES) ⊓ MAX_CHUNK_SIZE_BYTES) < S
      exact ceilDiv_pred_mul_lt _ _ hS hpos
  · refine ⟨?_, ?_⟩
    · show S ≤ ceilDiv S DEFAULT_CHUNK_SIZE_BYTES * DEFAULT_CHUNK_SIZE_BYTES
      exact le_ceilDiv_mul _ _ (by decide)
    · show (ceilDiv S DEFAULT_CHUNK_SIZE_BYTES - 1) * DEFAULT_CHUNK_SIZE_BYTES < S
      exact ceilDiv_pred_mul_lt _ _ hS (by decide)

theorem tiktokChunkPlan_bounds (U : Nat)
    (h1 : MIN_CHUNK_SIZE_BYTES ≤ U) (h2 : U ≤ 1000 * MAX_CHUNK_SIZE_BYTES) :
    (tiktokChunkPlan U).2 ≤ 1000 ∧
    MIN_CHUNK_SIZE_BYTES ≤ (tiktokChunkPlan U).1 ∧
    (tiktokChunkPlan U).1 ≤ MAX_CHUNK_SIZE_BYTES := by
  simp only [tiktokChunkPlan]
  split_ifs with ha hb hc
  · exact absurd ha (by omega)
  · refine ⟨?_, ?_, ?_⟩
    · show (1 : Nat) ≤ 1000
      decide
    · exact h1
    · exact hb
  · -- grown-and-clamped case
    have hdef : (0 : Nat) < DEFAULT_CHUNK_SIZE_BYTES := by decide
    have hU : 1000 * DEFAULT_CHUNK_SIZE_BYTES < U := by
      by_contra hcon
      push_neg at hcon
      have hle := ceilDiv_le U DEFAULT_CHUNK_SIZE_BYTES 1000 hdef (by omega)
      omega
    have hc1 : DEFAULT_CHUNK_SIZE_BYTES < ceilDiv U 1000 :=
      lt_ceilDiv U 1000 DEFAULT_CHUNK_SIZE_BYTES (by decide) (by omega)
    have hc1min : MIN_CHUNK_SIZE_BYTES ≤ ceilDiv U 1000 := by
      have hmd : MIN_CHUNK_SIZE_BYTES < DEFAULT_CHUNK_SIZE_BYTES := by decide
      omega
    have hc1max : ceilDiv U 1000 ≤ MAX_CHUNK_SIZE_BYTES :=
      ceilDiv_le U 1000 MAX_CHUNK_SIZE_BYTES (by decide) (by omega)
    have hcm : (ceilDiv U 1000 ⊔ MIN_CHUNK_SIZE_BYTES) ⊓ MAX_CHUNK_SIZE_BYTES =
        ceilDiv U 1000 := by
      omega
    rw [hcm]
    have hpos : 0 < ceilDiv U 1000 := by omega
    have hle2 : U ≤ 1000 * ceilDiv U 1000 := by
      have := le_ceilDiv_mul U 1000 (by decide)
      omega
    exact ⟨ceilDiv_le U (ceilDiv U 1000) 1000 hpos hle2, hc1min, hc1max⟩
  · refine ⟨?_, ?_, ?_⟩
    · show ceilDiv U DEFAULT_CHUNK_SIZE_BYTES ≤ 1000
      omega
    · show MIN_CHUNK_SIZE_BYTES ≤ DEFAULT_CHUNK_SIZE_BYTES
      decide
    · show DEFAULT_CHUNK_SIZE_BYTES ≤ MAX_CHUNK_SIZE_BYTES
      decide

/-- C2 amended: for every positive size the plan straddles the file
(`chunkCount * chunkSize ≥ S > (chunkCount-1) * chunkSize`); every file
not above the maximum single-chunk threshold uploads as exactly one
chunk of its own size; and the `chunkCount ≤ 1000` /
`chunkSize ∈ [minimum, maximum]` bounds hold for sizes between the
minimum chunk size and `1000 *` the maximum chunk size (outside that
range the counterexample shows they fail). -/
theorem tiktokChunkPlan_amended (S T U : Nat)
    (hS : 0 < S) (hT : T ≤ MAX_CHUNK_SIZE_BYTES)
    (hU1 : MIN_CHUNK_SIZE_BYTES ≤ U) (hU2 : U ≤ 1000 * MAX_CHUNK_SIZE_BYTES) :
    tiktokChunkPlan T = (T, 1) ∧
    (S ≤ (tiktokChunkPlan S).2 * (tiktokChunkPlan S).1 ∧
     ((tiktokChunkPlan S).2 - 1) * (tiktokChunkPlan S).1 < S) ∧
    ((tiktokChunkPlan U).2 ≤ 1000 ∧
     MIN_CHUNK_SIZE_BYTES ≤ (tiktokChunkPlan U).1 ∧
     (tiktokChunkPlan U).1 ≤ MAX_CHUNK_SIZE_BYTES) :=
  ⟨tiktokChunkPlan_single T hT, tiktokChunkPlan_straddle S hS,
   tiktokChunkPlan_bounds U hU1 hU2⟩

/-- C1: `postToAll` over an explicit platform list returns exactly one
`PostResult` per requested platform, in request order (`Promise.allSettled`
preserves positions); a platform whose handler throws contributes the
failure entry `{ platform, success: false, error }` at its own index;
and the entry of any platform depends only on that platform's handler
and the shared store, so a sibling handler's exception leaves it exactly
what it would have been.  `postToAll` itself is a total function into
`List PostResult` — no exception escapes it. -/
theorem postToAll_ordered_isolated
    (env env2 : DispatchEnv) (userId : String) (options : PostOptions)
    (ps : List String) (i : Nat) (q p : String) (conn : Conn)
    (handler : HandlerFn) (msg : String)
    (hh : findEntry env.handlers q = some handler)
    (hc : getConnection env.db userId q = some conn)
    (hthrow : handler userId conn options = .exn msg)
    (hdb : env2.db = env.db)
    (hsame : findEntry env2.handlers p = findEntry env.handlers p) :
    (postToAll env userId options (some ps)).length = ps.length ∧
    (postToAll env userId options (some ps))[i]? =
      (ps[i]?).map (settleOne env userId options) ∧
    settleOne env userId options q =
      { platform := some q, success := false,
        error := some (if msg = "" then "Unknown error occurred" else msg) } ∧
    settleOne env2 userId options p = settleOne env userId options p := by
  refine ⟨?_, ?_, ?_, ?_⟩
  · simp [postToAll]
  · simp [postToAll]
  · simp [settleOne, postToPlatform, hh, hc, hthrow]
  · simp only [settleOne, postToPlatform, hdb, hsame]

/-- Witness for C1: a two-platform batch where the Discord handler
throws; the Twitter entry is unaffected. -/
theorem postToAll_ordered_isolated_witness :
    findEntry envThrow.handlers "discord" = some throwingHandler ∧
    getConnection envThrow.db "alice" "discord" = some dcConnFix ∧
    throwingHandler "alice" dcConnFix optsFix = .exn "boom" ∧
    ((postToAll envThrow "alice" optsFix (some ["twitter", "discord"])).length =
       (["twitter", "discord"] : List String).length ∧
     (postToAll envThrow "alice" optsFix (some ["twitter", "discord"]))[1]? =
       ((["twitter", "discord"] : List String)[1]?).map (settleOne envThrow "alice" optsFix) ∧
     settleOne envThrow "alice" optsFix "discord" =
       { platform := some "discord", success := false,
         error := some (if "boom" = "" then "Unknown error occurred" else "boom") } ∧
     settleOne envOk "alice" optsFix "twitter" = settleOne envThrow "alice" optsFix "twitter") :=
  ⟨rfl, rfl, rfl,
   postToAll_ordered_isolated envThrow envOk "alice" optsFix ["twitter", "discord"] 1
     "discord" "twitter" dcConnFix throwingHandler "boom" rfl rfl rfl rfl rfl⟩

/-- C3: for the Twitter and TikTok OAuth providers, `handleCallback`
deletes the `OAuthState` row before the code-for-token exchange, so a
second sequential invocation with the same `state` token observes the
state absent, fails with the invalid-or-expired-state error, and leaves
the entire store (connections included) unchanged — the callback
succeeds at most once per state. -/
theorem handleCallback_single_use
    (envT envT2 : TwitterCallbackEnv) (envK envK2 : TikTokCallbackEnv)
    (dbT dbK : MemoryAdapter)
    (codeT stateT uriT codeT2 uriT2 codeK stateK uriK codeK2 uriK2 : String)
    (hT2 : envT2.hasCredentials = true) (hK2 : envK2.hasCredentials = true)
    (hT : envT.hasCredentials = true) (hK : envK.hasCredentials = true) :
    (twitterHandleCallback envT2 (twitterHandleCallback envT dbT codeT stateT uriT).2
        codeT2 stateT uriT2).1 = .error "Invalid or expired state parameter" ∧
    (twitterHandleCallback envT2 (twitterHandleCallback envT dbT codeT stateT uriT).2
        codeT2 stateT uriT2).2 = (twitterHandleCallback envT dbT codeT stateT uriT).2 ∧
    (tiktokHandleCallback envK2 (tiktokHandleCallback envK dbK codeK stateK uriK).2
        codeK2 stateK uriK2).1 = .error "Invalid or expired state parameter" ∧
    (tiktokHandleCallback envK2 (tiktokHandleCallback envK dbK codeK stateK uriK).2
        codeK2 stateK uriK2).2 = (tiktokHandleCallback envK dbK codeK stateK uriK).2 := by
  have hT' := twitterHandleCallback_absent_state envT2 _ codeT2 stateT uriT2 hT2
    (twitterHandleCallback_consumes_state envT dbT codeT stateT uriT hT)
  have hK' := tiktokHandleCallback_absent_state envK2 _ codeK2 stateK uriK2 hK2
    (tiktokHandleCallback_consumes_state envK dbK codeK stateK uriK hK)
  exact ⟨by rw [hT'], by rw [hT'], by rw [hK'], by rw [hK']⟩

/-- Witness for C3: the concrete replayed callbacks fail with the
invalid-state error and change nothing; the first Twitter callback
actually succeeded and consumed the state. -/
theorem handleCallback_single_use_witness :
    envTWcb.hasCredentials = true ∧ envKKcb.hasCredentials = true ∧
    (twitterHandleCallback envTWcb dbState "code" "state1" "uri").1.isOk = true ∧
    getOAuthState (twitterHandleCallback envTWcb dbState "code" "state1" "uri").2
      "state1" = none ∧
    ((twitterHandleCallback envTWcb (twitterHandleCallback envTWcb dbState "code" "state1" "uri").2
        "code" "state1" "uri").1 = .error "Invalid or expired state parameter" ∧
     (twitterHandleCallback envTWcb (twitterHandleCallback envTWcb dbState "code" "state1" "uri").2
        "code" "state1" "uri").2 = (twitterHandleCallback envTWcb dbState "code" "state1" "uri").2 ∧
     (tiktokHandleCallback envKKcb (tiktokHandleCallback envKKcb dbState "code" "state1" "uri").2
        "code" "state1" "uri").1 = .error "Invalid or expired state parameter" ∧
     (tiktokHandleCallback envKKcb (tiktokHandleCallback envKKcb dbState "code" "state1" "uri").2
        "code" "state1" "uri").2 = (tiktokHandleCallback envKKcb dbState "code" "state1" "uri").2) :=
  ⟨rfl, rfl, by decide, by decide,
   handleCallback_single_use envTWcb envTWcb envKKcb envKKcb dbState dbState
     "code" "state1" "uri" "code" "uri" "code" "state1" "uri" "code" "uri"
     rfl rfl rfl rfl⟩

/-- Witness for the amended C2 at concrete sizes (1 byte, 6 MiB,
100 MiB). -/
theorem tiktokChunkPlan_amended_witness :
    (0 < 1 ∧ 6291456 ≤ MAX_CHUNK_SIZE_BYTES ∧
     MIN_CHUNK_SIZE_BYTES ≤ 104857600 ∧
     104857600 ≤ 1000 * MAX_CHUNK_SIZE_BYTES) ∧
    (tiktokChunkPlan 6291456 = (6291456, 1) ∧
     (1 ≤ (tiktokChunkPlan 1).2 * (tiktokChunkPlan 1).1 ∧
      ((tiktokChunkPlan 1).2 - 1) * (tiktokChunkPlan 1).1 < 1) ∧
     ((tiktokChunkPlan 104857600).2 ≤ 1000 ∧
      MIN_CHUNK_SIZE_BYTES ≤ (tiktokChunkPlan 104857600).1 ∧
      (tiktokChunkPlan 104857600).1 ≤ MAX_CHUNK_SIZE_BYTES)) :=
  ⟨by decide,
   tiktokChunkPlan_amended 1 6291456 104857600 (by decide) (by decide)
     (by decide) (by decide)⟩

/-- C5 counterexample: TikTok is an OAuth2 platform whose stored
connection carries `expiresAt`, yet `TikTokHandler.sendPost` decides
refresh by JWT-decoding the access token (`isTokenExpired`) and never
reads `expiresAt`.  With `expiresAt = 0` (far in the past relative to
`now`) but a token whose `exp` lies in the future, no proactive refresh
happens and the publish call is issued directly; a connection with
`expiresAt` absent behaves identically. -/
theorem proactive_refresh_claim_false :
    tiktokConnStale.expiresAt = some 0 ∧
    tiktokConnNoExp.expiresAt = none ∧
    (0 : Int) < tiktokEnvFresh.now ∧
    (tiktokSendPost tiktokEnvFresh "alice" tiktokConnStale optsVideo dbTik).proactiveRefresh =
      false ∧
    (tiktokSendPost tiktokEnvFresh "alice" tiktokConnNoExp optsVideo dbTik).proactiveRefresh =
      false ∧
    (tiktokSendPost tiktokEnvFresh "alice" tiktokConnStale optsVideo dbTik).outcome =
      .ok { platform := some "tiktok", success := true,
            result := some { publish_id := some "pid1" } } := by
  decide

/-- C5 amended: the Twitter handler implements the claimed policy — an
`expiresAt` that is absent, or lies at or below `now` plus the 300 s
safety buffer (in particular any past `expiresAt`), triggers the
proactive refresh before the publish call.  The TikTok handler instead
refreshes exactly when `isTokenExpired` holds of the access token
itself, ignoring `expiresAt`. -/
theorem proactive_refresh_policy
    (envT : TwitterSendEnv) (envK : TikTokSendEnv)
    (uT uK urlK : String) (cT cK : Conn) (optsT optsK : PostOptions)
    (dbT dbK : MemoryAdapter)
    (hTtok : strFalsy cT.accessToken = false)
    (hTexp : cT.expiresAt = none ∨
      ∃ e, cT.expiresAt = some e ∧ e ≤ envT.now + REFRESH_BUFFER_SECONDS * 1000)
    (hKtok : strFalsy cK.accessToken = false)
    (hKurl : optsK.mediaUrl = some urlK) :
    (twitterSendPost envT uT cT optsT dbT).proactiveRefresh = true ∧
    (tiktokSendPost envK uK cK optsK dbK).proactiveRefresh =
      isTokenExpired envK.decode envK.nowSeconds cK.accessToken := by
  constructor
  · rw [twitterSendPost_proactive envT uT cT optsT dbT hTtok]
    rcases hTexp with hnone | ⟨e, he, hle⟩
    · simp [twitterNeedsRefresh, hnone]
    · simp only [twitterNeedsRefresh, he]
      exact decide_eq_true hle
  · exact tiktokSendPost_proactive envK uK cK optsK dbK urlK hKtok hKurl

/-- Witness for the amended C5: a Twitter connection whose expiry lies
in the past of `now` is proactively refreshed; the TikTok flag equals
the JWT-expiry check. -/
theorem proactive_refresh_policy_witness :
    strFalsy connFix.accessToken = false ∧
    connFix.expiresAt = some 1700000000000 ∧
    (1700000000000 : Int) ≤ twEnvLate.now + REFRESH_BUFFER_SECONDS * 1000 ∧
    ((twitterSendPost twEnvLate "alice" connFix optsFix dbFix).proactiveRefresh = true ∧
     (tiktokSendPost tiktokEnvFresh "alice" tiktokConnStale optsVideo dbTik).proactiveRefresh =
       isTokenExpired tiktokEnvFresh.decode tiktokEnvFresh.nowSeconds
         tiktokConnStale.accessToken) :=
  ⟨by decide, rfl, by decide,
   proactive_refresh_policy twEnvLate tiktokEnvFresh "alice" "alice"
     "https://cdn.example/v.mp4" connFix tiktokConnStale optsFix optsVideo dbFix dbTik
     (by decide) (Or.inr ⟨1700000000000, rfl, by decide⟩) (by decide) rfl⟩

/-- C4 counterexample: `TikTokHandler.sendPost` marks the stored
connection `isValid = false, needsReconnection = true` on *every*
publish-step failure — here a plain network error while downloading the
media, which the repository's own classifier `isAuthError` does not
consider an authentication error — where the claim requires validity to
be left untouched. -/
theorem validity_writeback_claim_false :
    isAuthError "tiktok" (some { message := "network down" }) = false ∧
    (tiktokSendPost tiktokEnvFail "alice" tiktokConnStale optsVideo dbTik).outcome =
      .ok { platform := some "tiktok", success := false, error := some "network down" } ∧
    getConnection (tiktokSendPost tiktokEnvFail "alice" tiktokConnStale optsVideo dbTik).db
        "alice" "tiktok" =
      some { tiktokConnStale with isValid := false, needsReconnection := true } := by
  decide

/-- C4 amended: the Twitter handler behaves as claimed — a publish
failure its classifier (`ApiResponseError` with status 401/403) does
not mark as auth leaves the store untouched, and a successful publish
stores `isValid = true, needsReconnection = false, lastValidated = now`.
The TikTok handler instead marks `isValid = false,
needsReconnection = true` on every failure of the publish flow, auth or
not. -/
theorem validity_writeback
    (envT1 envT2 : TwitterSendEnv) (envK : TikTokSendEnv)
    (u uK urlK : String) (c cK e0 eK : Conn) (opts optsK : PostOptions)
    (db dbK : MemoryAdapter) (kErr : TikTokErr) (twErr : TwitterApiError) (td : TweetData)
    (hTok : strFalsy c.accessToken = false)
    (hNR1 : twitterNeedsRefresh envT1.now c.expiresAt = false)
    (hNR2 : twitterNeedsRefresh envT2.now c.expiresAt = false)
    (hStored : getConnection db u "twitter" = some e0)
    (hFail : envT1.tweet1 = .error twErr)
    (hNonAuth : (twErr.isApiResponseError && (twErr.code == 401 || twErr.code == 403)) = false)
    (hOk : envT2.tweet1 = .ok td)
    (hKtok : strFalsy cK.accessToken = false)
    (hKurl : optsK.mediaUrl = some urlK)
    (hKvid : isVideoFile urlK = true)
    (hKfresh : isTokenExpired envK.decode envK.nowSeconds cK.accessToken = false)
    (hKdl : envK.download = .error kErr)
    (hKstored : getConnection dbK uK "tiktok" = some eK) :
    (twitterSendPost envT1 u c opts db).db = db ∧
    (twitterSendPost envT1 u c opts db).outcome =
      .ok { platform := some "twitter", success := false,
            error := some (if twErr.message = "" then "Unknown Twitter Error"
                           else twErr.message) } ∧
    getConnection (twitterSendPost envT2 u c opts db).db u "twitter" =
      some { e0 with isValid := true, needsReconnection := false,
                     lastValidated := some envT2.now } ∧
    (tiktokSendPost envK uK cK optsK dbK).outcome =
      .ok { platform := some "tiktok", success := false,
            error := some (tiktokErrMsg kErr) } ∧
    getConnection (tiktokSendPost envK uK cK optsK dbK).db uK "tiktok" =
      some { eK with isValid := false, needsReconnection := true } := by
  have hT1 : twitterSendPost envT1 u c opts db =
      ⟨.ok { platform := some "twitter", success := false,
             error := some (if twErr.message = "" then "Unknown Twitter Error"
                            else twErr.message) }, db, false⟩ := by
    simp [twitterSendPost, hTok, hNR1, hFail, hNonAuth]
  have hT2 : twitterSendPost envT2 u c opts db =
      ⟨.ok { platform := some "twitter", success := true,
             result := some { id := some td.id, tweetId := some td.id } },
       updateConnection db u "twitter" (validUpdate envT2.now), false⟩ := by
    simp [twitterSendPost, hTok, hNR2, hOk]
  have hK1 : tiktokSendPost envK uK cK optsK dbK =
      ⟨.ok { platform := some "tiktok", success := false,
             error := some (tiktokErrMsg kErr) },
       updateConnection dbK uK "tiktok" invalidUpdate, false⟩ := by
    simp [tiktokSendPost, hKtok, hKurl, hKfresh, hKvid, hKdl]
  refine ⟨by rw [hT1], by rw [hT1], ?_, by rw [hK1], ?_⟩
  · rw [hT2]
    rw [getConnection_updateConnection_self db u "twitter" _ e0 hStored]
    simp [applyUpdate, validUpdate, mergeField, mergeOptField]
  · rw [hK1]
    rw [getConnection_updateConnection_self dbK uK "tiktok" _ eK hKstored]
    simp [applyUpdate, invalidUpdate, mergeField, mergeOptField]

/-- Witness for the amended C4 at concrete environments. -/
theorem validity_writeback_witness :
    twitterNeedsRefresh twEnvFail.now connFix.expiresAt = false ∧
    (twErrServer.isApiResponseError &&
      (twErrServer.code == 401 || twErrServer.code == 403)) = false ∧
    ((twitterSendPost twEnvFail "alice" connFix optsFix dbFix).db = dbFix ∧
     (twitterSendPost twEnvFail "alice" connFix optsFix dbFix).outcome =
       .ok { platform := some "twitter", success := false,
             error := some (if twErrServer.message = "" then "Unknown Twitter Error"
                            else twErrServer.message) } ∧
     getConnection (twitterSendPost twEnvOk "alice" connFix optsFix dbFix).db
         "alice" "twitter" =
       some { connFix with isValid := true, needsReconnection := false,
                           lastValidated := some twEnvOk.now } ∧
     (tiktokSendPost tiktokEnvFail "alice" tiktokConnStale optsVideo dbTik).outcome =
       .ok { platform := some "tiktok", success := false,
             error := some (tiktokErrMsg tiktokErrNet) } ∧
     getConnection (tiktokSendPost tiktokEnvFail "alice" tiktokConnStale optsVideo dbTik).db
         "alice" "tiktok" =
       some { tiktokConnStale with isValid := false, needsReconnection := true }) :=
  ⟨by decide, by decide,
   validity_writeback twEnvFail twEnvOk tiktokEnvFail "alice" "alice"
     "https://cdn.example/v.mp4" connFix tiktokConnStale connFix tiktokConnStale
     optsFix optsVideo dbFix dbTik tiktokErrNet twErrServer { id := "7" }
     (by decide) (by decide) (by decide) (by decide) rfl (by decide) rfl
     (by decide) rfl (by decide) (by decide) rfl (by decide)⟩

/-- C8 counterexample: a successful LinkedIn publish whose response
carries no `x-restli-id` header returns `success = true` with
`result = {}` — no canonical post identifier — although LinkedIn is not
a fire-and-forget webhook platform. -/
theorem postresult_contract_claim_false :
    (linkedinSendPost lnEnvNoHeader "alice" lnConnFix optsText dbLn).outcome =
      .ok { platform := some "linkedin", success := true,
            result := some ({} : PostResultIds) } := by
  decide

/-- C8 amended: across the modelled handlers and the dispatcher,
`success = true` comes with `result` populated with the platform's
canonical identifier — tweet id for Twitter, `publish_id` for TikTok,
the empty object for the fire-and-forget Discord webhook, and for
LinkedIn the article id exactly when the response carries a non-empty
`x-restli-id` header (otherwise the result object is empty, the
deviation the counterexample exhibits) — while `success = false` comes
with `error` populated and `result` absent. -/
theorem postresult_contract
    (envT1 envT2 : TwitterSendEnv) (c : Conn) (u : String) (opts : PostOptions)
    (db : MemoryAdapter) (twErr : TwitterApiError) (td : TweetData)
    (envK1 envK2 : TikTokSendEnv) (cK : Conn) (uK urlK fp : String)
    (optsK : PostOptions) (dbK : MemoryAdapter) (kErr : TikTokErr) (pid : String) (sz : Nat)
    (envL1 envL2 : LinkedInSendEnv) (cL : Conn) (uL : String) (optsL : PostOptions)
    (dbL : MemoryAdapter) (respOk respBad : LinkedInResponse) (rid : String)
    (envD1 envD2 : DiscordSendEnv) (cD : Conn) (uD : String) (optsD : PostOptions)
    (dbD : MemoryAdapter) (drOk drBad : DiscordResponse)
    (denv : DispatchEnv) (q : String) (qconn : Conn) (qh : HandlerFn) (msg : String)
    (hTok : strFalsy c.accessToken = false)
    (hNR1 : twitterNeedsRefresh envT1.now c.expiresAt = false)
    (hNR2 : twitterNeedsRefresh envT2.now c.expiresAt = false)
    (hFail : envT1.tweet1 = .error twErr)
    (hNonAuth : (twErr.isApiResponseError && (twErr.code == 401 || twErr.code == 403)) = false)
    (hOk : envT2.tweet1 = .ok td)
    (hKtok : strFalsy cK.accessToken = false)
    (hKurl : optsK.mediaUrl = some urlK)
    (hKvid : isVideoFile urlK = true)
    (hKfresh1 : isTokenExpired envK1.decode envK1.nowSeconds cK.accessToken = false)
    (hKfresh2 : isTokenExpired envK2.decode envK2.nowSeconds cK.accessToken = false)
    (hKdl1 : envK1.download = .error kErr)
    (hKdl2 : envK2.download = .ok (fp, sz))
    (hKfp : isVideoFile fp = true)
    (hKvu : envK2.videoUpload = .ok pid)
    (hpid : pid ≠ "")
    (hLtok : strFalsy cL.accessToken = false)
    (hLmid : strFalsy cL.linkedInUserId = false)
    (hLfresh1 : isTokenExpired envL1.decode envL1.nowSeconds cL.accessToken = false)
    (hLfresh2 : isTokenExpired envL2.decode envL2.nowSeconds cL.accessToken = false)
    (hLpost1 : envL1.ugcPost = .ok respOk)
    (hLok : respOk.ok = true)
    (hLrid : respOk.restliId = some rid)
    (hridne : rid ≠ "")
    (hLpost2 : envL2.ugcPost = .ok respBad)
    (hLbad : respBad.ok = false)
    (hDhook : strFalsy cD.webhookUrl = false)
    (hDr1 : envD1.webhook = .ok drOk)
    (hDok : drOk.ok = true)
    (hDr2 : envD2.webhook = .ok drBad)
    (hDbad : drBad.ok = false)
    (hqh : findEntry denv.handlers q = some qh)
    (hqc : getConnection denv.db u q = some qconn)
    (hqthrow : qh u qconn opts = .exn msg) :
    (twitterSendPost envT2 u c opts db).outcome =
      .ok { platform := some "twitter", success := true,
            result := some { id := some td.id, tweetId := some td.id } } ∧
    (twitterSendPost envT1 u c opts db).outcome =
      .ok { platform := some "twitter", success := false,
            error := some (if twErr.message = "" then "Unknown Twitter Error"
                           else twErr.message) } ∧
    (tiktokSendPost envK2 uK cK optsK dbK).outcome =
      .ok { platform := some "tiktok", success := true,
            result := some { publish_id := some pid } } ∧
    (tiktokSendPost envK1 uK cK optsK dbK).outcome =
      .ok { platform := some "tiktok", success := false,
            error := some (tiktokErrMsg kErr) } ∧
    (linkedinSendPost envL1 uL cL optsL dbL).outcome =
      .ok { platform := some "linkedin", success := true,
            result := some { id := some rid } } ∧
    (linkedinSendPost envL2 uL cL optsL dbL).outcome =
      .ok { platform := some "linkedin", success := false,
            error := some ("LinkedIn API Error: " ++ toString respBad.status ++ " - "
                           ++ respBad.statusText ++ " - " ++ respBad.errorBody) } ∧
    (discordSendPost envD1 uD cD optsD dbD).outcome =
      .ok { platform := some "discord", success := true,
            result := some ({} : PostResultIds) } ∧
    (discordSendPost envD2 uD cD optsD dbD).outcome =
      .ok { platform := some "discord", success := false,
            error := some ("Discord webhook error: " ++ toString drBad.status ++ " "
                           ++ drBad.statusText) } ∧
    settleOne denv u opts q =
      { platform := some q, success := false,
        error := some (if msg = "" then "Unknown error occurred" else msg) } := by
  refine ⟨?_, ?_, ?_, ?_, ?_, ?_, ?_, ?_, ?_⟩
  · simp [twitterSendPost, hTok, hNR2, hOk]
  · simp [twitterSendPost, hTok, hNR1, hFail, hNonAuth]
  · simp [tiktokSendPost, hKtok, hKurl, hKvid, hKfresh2, hKdl2, hKfp, hKvu, hpid]
  · simp [tiktokSendPost, hKtok, hKurl, hKvid, hKfresh1, hKdl1]
  · simp [linkedinSendPost, hLtok, hLmid, hLfresh1, hLpost1, hLok, hLrid, hridne]
  · simp [linkedinSendPost, hLtok, hLmid, hLfresh2, hLpost2, hLbad]
  · simp [discordSendPost, hDhook, hDr1, hDok]
  · simp [discordSendPost, hDhook, hDr2, hDbad]
  · simp [settleOne, postToPlatform, hqh, hqc, hqthrow]

/-- Witness for the amended C8 at concrete environments. -/
theorem postresult_contract_witness :
    (twEnvOk.tweet1 = .ok { id := "7" } ∧
     lnEnvWithHeader.ugcPost = .ok { ok := true, status := 201,
                                     statusText := "Created", errorBody := "",
                                     restliId := some "urn-li-share-1" } ∧
     dcEnvOk.webhook = .ok { ok := true, status := 204, statusText := "No Content" }) ∧
    ((twitterSendPost twEnvOk "alice" connFix optsFix dbFix).outcome =
       .ok { platform := some "twitter", success := true,
             result := some { id := some "7", tweetId := some "7" } } ∧
     (twitterSendPost twEnvFail "alice" connFix optsFix dbFix).outcome =
       .ok { platform := some "twitter", success := false,
             error := some (if twErrServer.message = "" then "Unknown Twitter Error"
                            else twErrServer.message) } ∧
     (tiktokSendPost tiktokEnvFresh "alice" tiktokConnStale optsVideo dbTik).outcome =
       .ok { platform := some "tiktok", success := true,
             result := some { publish_id := some "pid1" } } ∧
     (tiktokSendPost tiktokEnvFail "alice" tiktokConnStale optsVideo dbTik).outcome =
       .ok { platform := some "tiktok", success := false,
             error := some (tiktokErrMsg tiktokErrNet) } ∧
     (linkedinSendPost lnEnvWithHeader "alice" lnConnFix optsText dbLn).outcome =
       .ok { platform := some "linkedin", success := true,
             result := some { id := some "urn-li-share-1" } } ∧
     (linkedinSendPost lnEnvBad "alice" lnConnFix optsText dbLn).outcome =
       .ok { platform := some "linkedin", success := false,
             error := some ("LinkedIn API Error: " ++ toString (500 : Int) ++ " - "
                            ++ "Server Error" ++ " - " ++ "oops") } ∧
     (discordSendPost dcEnvOk "alice" dcConnFix optsText dbDc).outcome =
       .ok { platform := some "discord", success := true,
             result := some ({} : PostResultIds) } ∧
     (discordSendPost dcEnvBad "alice" dcConnFix optsText dbDc).outcome =
       .ok { platform := some "discord", success := false,
             error := some ("Discord webhook error: " ++ toString (404 : Int) ++ " "
                            ++ "Not Found") } ∧
     settleOne envThrow "alice" optsFix "discord" =
       { platform := some "discord", success := false,
         error := some (if "boom" = "" then "Unknown error occurred" else "boom") }) :=
  ⟨⟨rfl, rfl, rfl⟩,
   postresult_contract twEnvFail twEnvOk connFix "alice" optsFix dbFix twErrServer
     { id := "7" } tiktokEnvFail tiktokEnvFresh tiktokConnStale "alice"
     "https://cdn.example/v.mp4" "/tmp/v.mp4" optsVideo dbTik tiktokErrNet "pid1" 1000
     lnEnvWithHeader lnEnvBad lnConnFix "alice" optsText dbLn
     { ok := true, status := 201, statusText := "Created", errorBody := "",
         restliId := some "urn-li-share-1" }
     { ok := false, status := 500, statusText := "Server Error", errorBody := "oops",
         restliId := none }
     "urn-li-share-1" dcEnvOk dcEnvBad dcConnFix "alice" optsText dbDc
     { ok := true, status := 204, statusText := "No Content" }
     { ok := false, status := 404, statusText := "Not Found" }
     envThrow "discord" dcConnFix throwingHandler "boom"
     (by decide) (by decide) (by decide) (by decide) (by decide) (by decide)
     (by decide) (by decide) (by decide) (by decide) (by decide) (by decide)
     (by decide) (by decide) (by decide) (by decide) (by decide) (by decide)
     (by decide) (by decide) (by decide) (by decide) (by decide) (by decide)
     (by decide) (by decide) (by decide) (by decide) (by decide) (by decide)
     (by decide) rfl (by decide) rfl⟩

end SyncPlug
